import Mathlib

/-!
Shallow embedding of `src/ds4_ur10_teleop_2.py` (DS4 → UR10 teleoperation).

Numeric values are modelled as rationals.  The mutable attributes of the
`UR10DS4Teleop` object that the motion-control loop and the input callbacks
share become the fields of `TeleopState`; every `on_*` callback becomes a
state transformer; calls issued to the RTDE control interface become an
explicit `Command` trace.
-/

namespace Teleop

/-- The joystick/trigger attributes and the `running` shutdown flag of
`UR10DS4Teleop.__init__` (lines 43–53 of the source). -/
structure TeleopState where
  left_x : ℚ
  left_y : ℚ
  right_x : ℚ
  right_y : ℚ
  l1_value : ℚ
  l2_value : ℚ
  r1_value : ℚ
  r2_value : ℚ
  running : Bool
  deriving Repr, DecidableEq

/-- `self.velocity_scale = 0.1`. -/
def velocity_scale : ℚ := 1/10

/-- `self.acceleration = 0.2`. -/
def acceleration : ℚ := 1/5

/-- `self.deadzone = 0.1`. -/
def deadzone : ℚ := 1/10

/-- `rate = 125` (Hz) in `_motion_control_loop`. -/
def rate : ℚ := 125

/-- `dt = 1.0 / rate`. -/
def dt : ℚ := 1 / rate

/-- The `0.001` epsilon of the `any(abs(v) > 0.001 ...)` test. -/
def epsilon : ℚ := 1/1000

/-- `self.home_joint_position = [-1.57, -1.57, -1.57, -1.57, 1.57, 0.0]`. -/
def home_joint_position : List ℚ :=
  [-157/100, -157/100, -157/100, -157/100, 157/100, 0]

/-- The state set up by `__init__`: all joystick values zero, `running = True`. -/
def initState : TeleopState :=
  { left_x := 0, left_y := 0, right_x := 0, right_y := 0,
    l1_value := 0, l2_value := 0, r1_value := 0, r2_value := 0,
    running := true }

/-- `_apply_deadzone` (source lines 88–93), with `self.deadzone`
abstracted into the parameter `d`:
`if abs(value) < d: return 0.0;`
`sign = 1 if value > 0 else -1;`
`return sign * (abs(value) - d) / (1 - d)`. -/
def apply_deadzone (d : ℚ) (value : ℚ) : ℚ :=
  if |value| < d then 0
  else (if value > 0 then 1 else -1) * (|value| - d) / (1 - d)

/-- The calls the program issues to the RTDE control interface. -/
inductive Command where
  | speedL (vel : List ℚ) (acc : ℚ) (time : ℚ)
  | speedStop
  | moveJ (pose : List ℚ) (speed : ℚ) (acc : ℚ)
  | stopScript
  deriving Repr, DecidableEq

/-- The cartesian velocity command `[x, y, z, rx, ry, rz]` assembled in
`_motion_control_loop` (source lines 102–119), with
`z_velocity = (l1_value - l2_value) * vel_scale` and
`yaw_velocity = (r1_value - r2_value) * vel_scale` inlined. -/
def velocity_cmd (s : TeleopState) (vel_scale : ℚ) : List ℚ :=
  [-s.left_y * vel_scale,
   -s.left_x * vel_scale,
   (s.l1_value - s.l2_value) * vel_scale,
   s.right_y * vel_scale,
   -s.right_x * vel_scale,
   (s.r1_value - s.r2_value) * vel_scale]

/-- One body of the `while self.running` loop, failure-free case: compute the
velocity command and either `speedL(velocity_cmd, self.acceleration, dt * 2)`
(when `any(abs(v) > 0.001 for v in velocity_cmd)`) or `speedStop()`. -/
def motion_tick (s : TeleopState) : Command :=
  let v := velocity_cmd s velocity_scale
  if v.any (fun x => decide (epsilon < |x|)) then
    Command.speedL v acceleration (dt * 2)
  else
    Command.speedStop

/-- `_motion_control_loop` as a function of the tick-failure oracle: each
list entry says whether the robot call of that iteration raises.  A raising
iteration runs the `except` branch — print the error, `self.running = False`,
`break` — emitting no command; otherwise the tick's single command is
emitted and the loop continues.  The loop body runs only `while self.running`. -/
def motion_loop : TeleopState → List Bool → TeleopState × List Command
  | s, [] => (s, [])
  | s, f :: fs =>
    if s.running then
      if f then ({ s with running := false }, [])
      else
        let r := motion_loop s fs
        (r.1, motion_tick s :: r.2)
    else (s, [])

/-- `on_square_press` (source lines 150–154): print, `speedStop()`,
`stopScript()`.  No attribute of the object is written. -/
def on_square_press (s : TeleopState) : TeleopState × List Command :=
  (s, [Command.speedStop, Command.stopScript])

/-- `on_L3_up`: `self.left_y = self._apply_deadzone(value / 32767.0)`. -/
def on_L3_up (value : ℚ) (s : TeleopState) : TeleopState :=
  { s with left_y := apply_deadzone deadzone (value / 32767) }

/-- `on_L3_down`: `self.left_y = self._apply_deadzone(value / 32767.0)`. -/
def on_L3_down (value : ℚ) (s : TeleopState) : TeleopState :=
  { s with left_y := apply_deadzone deadzone (value / 32767) }

/-- `on_L3_left`: `self.left_x = self._apply_deadzone(value / 32767.0)`. -/
def on_L3_left (value : ℚ) (s : TeleopState) : TeleopState :=
  { s with left_x := apply_deadzone deadzone (value / 32767) }

/-- `on_L3_right`: `self.left_x = self._apply_deadzone(value / 32767.0)`. -/
def on_L3_right (value : ℚ) (s : TeleopState) : TeleopState :=
  { s with left_x := apply_deadzone deadzone (value / 32767) }

/-- `on_L3_y_at_rest`: `self.left_y = 0.0`. -/
def on_L3_y_at_rest (s : TeleopState) : TeleopState :=
  { s with left_y := 0 }

/-- `on_L3_x_at_rest`: `self.left_x = 0.0`. -/
def on_L3_x_at_rest (s : TeleopState) : TeleopState :=
  { s with left_x := 0 }

/-- `on_R3_up` (source lines 193–196): despite its docstring it writes
`self.r2_value = 0.0`, ignoring `value`. -/
def on_R3_up (_value : ℚ) (s : TeleopState) : TeleopState :=
  { s with r2_value := 0 }

/-- `on_R3_down` (source lines 198–201): writes
`self.r2_value = self._apply_deadzone(value / 32767.0)`. -/
def on_R3_down (value : ℚ) (s : TeleopState) : TeleopState :=
  { s with r2_value := apply_deadzone deadzone (value / 32767) }

/-- `on_R3_left` (source lines 203–206): writes `self.l2_value = 0.0`,
ignoring `value`. -/
def on_R3_left (_value : ℚ) (s : TeleopState) : TeleopState :=
  { s with l2_value := 0 }

/-- `on_R3_right` (source lines 208–211): writes
`self.l2_value = self._apply_deadzone(value / 32767.0)`. -/
def on_R3_right (value : ℚ) (s : TeleopState) : TeleopState :=
  { s with l2_value := apply_deadzone deadzone (value / 32767) }

/-- `on_R3_y_at_rest`: `self.right_y = 0.0`. -/
def on_R3_y_at_rest (s : TeleopState) : TeleopState :=
  { s with right_y := 0 }

/-- `on_R3_x_at_rest`: `self.right_x = 0.0`. -/
def on_R3_x_at_rest (s : TeleopState) : TeleopState :=
  { s with right_x := 0 }

/-- `on_L1_press(value=32767.0)`:
`self.l1_value = self._apply_deadzone(value / 32767.0)`. -/
def on_L1_press (value : ℚ) (s : TeleopState) : TeleopState :=
  { s with l1_value := apply_deadzone deadzone (value / 32767) }

/-- `on_L1_release`: `self.l1_value = 0.0`. -/
def on_L1_release (s : TeleopState) : TeleopState :=
  { s with l1_value := 0 }

/-- `on_L2_press` (source lines 231–234): despite its docstring (L2 moves
down, i.e. the `l2_value` field) it writes
`self.right_x = self._apply_deadzone(value / 32767.0)`. -/
def on_L2_press (value : ℚ) (s : TeleopState) : TeleopState :=
  { s with right_x := apply_deadzone deadzone (value / 32767) }

/-- `on_L2_release` (source lines 236–238): `self.right_x = 0.0`. -/
def on_L2_release (s : TeleopState) : TeleopState :=
  { s with right_x := 0 }

/-- `on_R1_press(value=32767.0)`:
`self.r1_value = self._apply_deadzone(value / 32767.0)`. -/
def on_R1_press (value : ℚ) (s : TeleopState) : TeleopState :=
  { s with r1_value := apply_deadzone deadzone (value / 32767) }

/-- `on_R1_release`: `self.r1_value = 0.0`. -/
def on_R1_release (s : TeleopState) : TeleopState :=
  { s with r1_value := 0 }

/-- `on_R2_press` (source lines 249–252): despite its docstring (R2 is the
clockwise-yaw trigger, i.e. `r2_value`) it writes
`self.right_y = self._apply_deadzone(value / 32767.0)`. -/
def on_R2_press (value : ℚ) (s : TeleopState) : TeleopState :=
  { s with right_y := apply_deadzone deadzone (value / 32767) }

/-- `on_R2_release` (source lines 254–256): `self.right_y = 0.0`. -/
def on_R2_release (s : TeleopState) : TeleopState :=
  { s with right_y := 0 }

/-- The axis/trigger input events delivered by the input-event source, each
tagged with the raw signed sample it carries (button events with no axis
value are not part of this datatype). -/
inductive InputEvent where
  | l3_up (v : ℚ)
  | l3_down (v : ℚ)
  | l3_left (v : ℚ)
  | l3_right (v : ℚ)
  | l3_y_at_rest
  | l3_x_at_rest
  | r3_up (v : ℚ)
  | r3_down (v : ℚ)
  | r3_left (v : ℚ)
  | r3_right (v : ℚ)
  | r3_y_at_rest
  | r3_x_at_rest
  | l1_press (v : ℚ)
  | l1_release
  | l2_press (v : ℚ)
  | l2_release
  | r1_press (v : ℚ)
  | r1_release
  | r2_press (v : ℚ)
  | r2_release
  deriving Repr, DecidableEq

/-- Dispatch of one input event to its callback. -/
def dispatch : InputEvent → TeleopState → TeleopState
  | InputEvent.l3_up v => on_L3_up v
  | InputEvent.l3_down v => on_L3_down v
  | InputEvent.l3_left v => on_L3_left v
  | InputEvent.l3_right v => on_L3_right v
  | InputEvent.l3_y_at_rest => on_L3_y_at_rest
  | InputEvent.l3_x_at_rest => on_L3_x_at_rest
  | InputEvent.r3_up v => on_R3_up v
  | InputEvent.r3_down v => on_R3_down v
  | InputEvent.r3_left v => on_R3_left v
  | InputEvent.r3_right v => on_R3_right v
  | InputEvent.r3_y_at_rest => on_R3_y_at_rest
  | InputEvent.r3_x_at_rest => on_R3_x_at_rest
  | InputEvent.l1_press v => on_L1_press v
  | InputEvent.l1_release => on_L1_release
  | InputEvent.l2_press v => on_L2_press v
  | InputEvent.l2_release => on_L2_release
  | InputEvent.r1_press v => on_R1_press v
  | InputEvent.r1_release => on_R1_release
  | InputEvent.r2_press v => on_R2_press v
  | InputEvent.r2_release => on_R2_release

/-- Value ranges the input-event source guarantees: every raw sample lies in
the device range `±32767`; directional half-axis events (`down`, `right`)
and trigger presses of the digital shoulder buttons carry the non-negative
half of the range. -/
def validEvent : InputEvent → Prop
  | InputEvent.l3_up v => -32767 ≤ v ∧ v ≤ 32767
  | InputEvent.l3_down v => -32767 ≤ v ∧ v ≤ 32767
  | InputEvent.l3_left v => -32767 ≤ v ∧ v ≤ 32767
  | InputEvent.l3_right v => -32767 ≤ v ∧ v ≤ 32767
  | InputEvent.r3_up v => -32767 ≤ v ∧ v ≤ 32767
  | InputEvent.r3_down v => 0 ≤ v ∧ v ≤ 32767
  | InputEvent.r3_left v => -32767 ≤ v ∧ v ≤ 32767
  | InputEvent.r3_right v => 0 ≤ v ∧ v ≤ 32767
  | InputEvent.l1_press v => 0 ≤ v ∧ v ≤ 32767
  | InputEvent.l2_press v => -32767 ≤ v ∧ v ≤ 32767
  | InputEvent.r1_press v => 0 ≤ v ∧ v ≤ 32767
  | InputEvent.r2_press v => -32767 ≤ v ∧ v ≤ 32767
  | _ => True

instance (e : InputEvent) : Decidable (validEvent e) := by
  cases e <;> simp only [validEvent] <;> infer_instance

/-- Folding a stream of input events through the callbacks. -/
def applyEvents (s : TeleopState) (evs : List InputEvent) : TeleopState :=
  evs.foldl (fun t e => dispatch e t) s

/-- The Input State invariant of the data model: the four axis fields lie in
`[-1, 1]` and the four trigger fields in `[0, 1]`. -/
def inRange (s : TeleopState) : Prop :=
  |s.left_x| ≤ 1 ∧ |s.left_y| ≤ 1 ∧ |s.right_x| ≤ 1 ∧ |s.right_y| ≤ 1 ∧
  0 ≤ s.l1_value ∧ s.l1_value ≤ 1 ∧ 0 ≤ s.l2_value ∧ s.l2_value ≤ 1 ∧
  0 ≤ s.r1_value ∧ s.r1_value ≤ 1 ∧ 0 ≤ s.r2_value ∧ s.r2_value ≤ 1

instance (s : TeleopState) : Decidable (inRange s) := by
  unfold inRange; infer_instance

/-!  Interleaving model of `on_triangle_press` against the motion thread.
`on_triangle_press` (source lines 143–148) performs, in program order, the
robot-interface calls `speedStop()` and the blocking
`moveJ(self.home_joint_position, 1.05, 1.4)`; the motion thread meanwhile
keeps executing loop iterations, guarded only by `self.running`.  The
blocking `moveJ` call is split into the instant its command is issued and
the instant it returns (the completion acknowledgment), so that loop ticks
can be scheduled while the move is in flight. -/

/-- The atomic actions of the `on_triangle_press` handler. -/
inductive HomeStep where
  | callStop
  | moveStart
  | moveEnd
  deriving Repr, DecidableEq

/-- One atomic step of either concurrent activity: a handler action or one
motion-loop tick. -/
inductive Step where
  | home (h : HomeStep)
  | tick
  deriving Repr, DecidableEq

/-- Observable events: a command delivered to the robot interface, or the
completion acknowledgment of the blocking joint move. -/
inductive Ev where
  | cmd (c : Command)
  | moveDone
  deriving Repr, DecidableEq

/-- Effect of one atomic step.  A handler step issues its robot-interface
call (neither touches the shared attributes); a tick step behaves as one
failure-free iteration of `_motion_control_loop`, which runs whenever
`self.running` holds — the code has no lock or pause flag for it to check. -/
def exec_step (s : TeleopState) : Step → TeleopState × List Ev
  | Step.home HomeStep.callStop => (s, [Ev.cmd Command.speedStop])
  | Step.home HomeStep.moveStart =>
      (s, [Ev.cmd (Command.moveJ home_joint_position (21/20) (7/5))])
  | Step.home HomeStep.moveEnd => (s, [Ev.moveDone])
  | Step.tick =>
      if s.running then (s, [Ev.cmd (motion_tick s)]) else (s, [])

/-- Event trace of a whole schedule. -/
def exec_sched : TeleopState → List Step → List Ev
  | _, [] => []
  | s, st :: rest =>
    let r := exec_step s st
    r.2 ++ exec_sched r.1 rest

/-- A schedule is an interleaving of the `on_triangle_press` handler with
loop ticks when its handler steps occur exactly once each, in the handler's
program order `speedStop(); moveJ(...); return`. -/
def homeOrder (sched : List Step) : Prop :=
  sched.filter (fun st => decide (st ≠ Step.tick)) =
    [Step.home HomeStep.callStop, Step.home HomeStep.moveStart,
     Step.home HomeStep.moveEnd]

instance (sched : List Step) : Decidable (homeOrder sched) := by
  unfold homeOrder; infer_instance

/-- Whether a velocity-streaming command occurs while the joint move is in
flight: scanning the trace, a `speedL` seen after a `moveJ` and before the
matching `moveDone` acknowledgment. -/
def streamDuringMove : Bool → List Ev → Bool
  | _, [] => false
  | inMove, e :: rest =>
    match e with
    | Ev.cmd (Command.moveJ _ _ _) => streamDuringMove true rest
    | Ev.moveDone => streamDuringMove false rest
    | Ev.cmd (Command.speedL _ _ _) => inMove || streamDuringMove inMove rest
    | _ => streamDuringMove inMove rest

/-- Modelled from the spec (§4.2, Velocity Command Synthesizer), stated in
the spec's own field names: the 6-vector
`[-forward*s, -lateral*s, (liftUp-liftDown)*s, pitchAxis*s, -rollAxis*s,
(yawCcw-yawCw)*s]`. -/
def spec_velocity_vector (forward lateral liftUp liftDown rollAxis pitchAxis
    yawCcw yawCw s : ℚ) : List ℚ :=
  [-forward * s, -lateral * s, (liftUp - liftDown) * s,
   pitchAxis * s, -rollAxis * s, (yawCcw - yawCw) * s]

/-- A live state with the left stick held fully forward: the control loop is
in its Streaming regime here. -/
def exStream : TeleopState := { initState with left_y := 1 }

/-- A state whose pitch-axis field holds a non-zero value, used to observe
which fields a callback leaves untouched. -/
def exHalf : TeleopState := { initState with right_y := 1/2 }

/-- The interleaving in which one motion-loop tick runs while the blocking
`moveJ` of `on_triangle_press` is in flight. -/
def homeSched : List Step :=
  [Step.home HomeStep.callStop, Step.home HomeStep.moveStart,
   Step.tick, Step.home HomeStep.moveEnd]

/-! ### Properties of the deadzone filter -/

lemma abs_apply_deadzone {d v : ℚ} (hd1 : d < 1) (h : d ≤ |v|) :
    |apply_deadzone d v| = (|v| - d) / (1 - d) := by
  unfold apply_deadzone
  rw [if_neg (not_lt.2 h), abs_div, abs_mul]
  have h1 : |(1 : ℚ) - d| = 1 - d := abs_of_pos (by linarith)
  have h2 : |(|v| - d)| = |v| - d := abs_of_nonneg (by linarith)
  have h3 : |(if v > 0 then (1 : ℚ) else -1)| = 1 := by split <;> norm_num
  rw [h1, h2, h3, one_mul]

lemma apply_deadzone_sign {d v : ℚ} (hd0 : 0 ≤ d) (h : d ≤ |v|) :
    apply_deadzone d v = (SignType.sign v : ℚ) * (|v| - d) / (1 - d) := by
  unfold apply_deadzone
  rw [if_neg (not_lt.2 h)]
  rcases lt_trichotomy v 0 with hv | hv | hv
  · rw [if_neg (by linarith), sign_neg hv]
    norm_num
  · subst hv
    have hd : d = 0 := le_antisymm (by simpa using h) hd0
    subst hd
    norm_num
  · rw [if_pos hv, sign_pos hv]
    norm_num

lemma apply_deadzone_abs_le_one {d v : ℚ} (hd0 : 0 ≤ d) (hd1 : d < 1)
    (hv : |v| ≤ 1) : |apply_deadzone d v| ≤ 1 := by
  by_cases h : |v| < d
  · unfold apply_deadzone
    rw [if_pos h]
    norm_num
  · rw [abs_apply_deadzone hd1 (not_lt.1 h), div_le_one (by linarith)]
    linarith

lemma apply_deadzone_nonneg {d v : ℚ} (hd0 : 0 ≤ d) (hd1 : d < 1)
    (hv : 0 ≤ v) : 0 ≤ apply_deadzone d v := by
  unfold apply_deadzone
  by_cases h : |v| < d
  · rw [if_pos h]
  · rw [if_neg h]
    rcases hv.lt_or_eq with hv' | hv'
    · rw [if_pos hv']
      have h1 : d ≤ |v| := not_lt.1 h
      rw [one_mul]
      exact div_nonneg (by linarith) (by linarith)
    · rw [← hv'] at h ⊢
      have hd : d = 0 := le_antisymm (by simpa using not_lt.1 h) hd0
      subst hd
      norm_num

/-- C6.  The deadzone filter is the total function of the contract: on the
admissible domain it returns 0 inside the dead zone and
`sign(v) * (|v| - d) / (1 - d)` outside; it maps 1 to exactly 1 and -1 to
exactly -1; and outside the dead zone its magnitude is monotone in `|v|`.
Being a Lean function of its two arguments, it is deterministic and
side-effect-free. -/
theorem apply_deadzone_spec (d v : ℚ) (hd0 : 0 ≤ d) (hd1 : d < 1)
    (hv1 : -1 ≤ v) (hv2 : v ≤ 1) :
    (|v| < d → apply_deadzone d v = 0) ∧
    (d ≤ |v| →
      apply_deadzone d v = (SignType.sign v : ℚ) * (|v| - d) / (1 - d)) ∧
    apply_deadzone d 1 = 1 ∧
    apply_deadzone d (-1) = -1 ∧
    (∀ w : ℚ, d ≤ |v| → d ≤ |w| → |v| ≤ |w| →
      |apply_deadzone d v| ≤ |apply_deadzone d w|) := by
  refine ⟨fun h => ?_, fun h => apply_deadzone_sign hd0 h, ?_, ?_, ?_⟩
  · unfold apply_deadzone
    rw [if_pos h]
  · unfold apply_deadzone
    rw [if_neg (by rw [abs_one]; exact not_lt.2 hd1.le), if_pos one_pos]
    rw [abs_one, one_mul]
    exact div_self (by linarith)
  · unfold apply_deadzone
    rw [if_neg (by rw [abs_neg, abs_one]; exact not_lt.2 hd1.le)]
    rw [if_neg (by norm_num), abs_neg, abs_one, neg_one_mul, neg_div,
      div_self (show (1:ℚ) - d ≠ 0 by linarith)]
  · intro w hv hw hvw
    rw [abs_apply_deadzone hd1 hv, abs_apply_deadzone hd1 hw]
    have h2 : (0:ℚ) < 1 - d := by linarith
    gcongr

/-- Witness for C6 at `d = 1/10`, `v = 1/2`. -/
theorem apply_deadzone_spec_witness :
    (0:ℚ) ≤ 1/10 ∧ (1:ℚ)/10 < 1 ∧ (-1:ℚ) ≤ 1/2 ∧ (1:ℚ)/2 ≤ 1 ∧
    apply_deadzone (1/10) (1/2) =
      (SignType.sign ((1:ℚ)/2) : ℚ) * (|(1:ℚ)/2| - 1/10) / (1 - 1/10) := by
  refine ⟨by norm_num, by norm_num, by norm_num, by norm_num, ?_⟩
  exact (apply_deadzone_spec (1/10) (1/2) (by norm_num) (by norm_num)
    (by norm_num) (by norm_num)).2.1 (by rw [abs_div, abs_one, abs_two]; norm_num)

/-! ### The velocity-command synthesizer -/

/-- C7.  The vector assembled each tick by `_motion_control_loop` is exactly
the spec's 6-vector, under the data-model correspondence
forward = `left_y`, lateral = `left_x`, liftUp = `l1_value`,
liftDown = `l2_value`, rollAxis = `right_x`, pitchAxis = `right_y`,
yawCcw = `r1_value`, yawCw = `r2_value`; all six components come from the
one snapshot `s` (no partial update), and the zero snapshot yields the zero
vector. -/
theorem velocity_cmd_matches_spec :
    (∀ (s : TeleopState) (scale : ℚ),
      velocity_cmd s scale =
        spec_velocity_vector s.left_y s.left_x s.l1_value s.l2_value
          s.right_x s.right_y s.r1_value s.r2_value scale) ∧
    (∀ scale : ℚ, velocity_cmd initState scale = [0, 0, 0, 0, 0, 0]) := by
  constructor
  · intro s scale
    rfl
  · intro scale
    simp [velocity_cmd, initState]

/-! ### The Input State invariant -/

lemma dz_unit_abs {v : ℚ} (h1 : -32767 ≤ v) (h2 : v ≤ 32767) :
    |apply_deadzone deadzone (v / 32767)| ≤ 1 := by
  apply apply_deadzone_abs_le_one (by norm_num [deadzone]) (by norm_num [deadzone])
  rw [abs_div, abs_of_pos (show (0:ℚ) < 32767 by norm_num),
    div_le_one (by norm_num), abs_le]
  exact ⟨h1, h2⟩

lemma dz_unit_trigger {v : ℚ} (h1 : 0 ≤ v) (h2 : v ≤ 32767) :
    0 ≤ apply_deadzone deadzone (v / 32767) ∧
      apply_deadzone deadzone (v / 32767) ≤ 1 := by
  have hn : 0 ≤ apply_deadzone deadzone (v / 32767) :=
    apply_deadzone_nonneg (by norm_num [deadzone]) (by norm_num [deadzone])
      (by positivity)
  exact ⟨hn, le_trans (le_abs_self _) (dz_unit_abs (by linarith) h2)⟩

lemma initState_inRange : inRange initState := by
  unfold inRange initState
  norm_num

lemma dispatch_preserves {e : InputEvent} {s : TeleopState}
    (he : validEvent e) (hs : inRange s) : inRange (dispatch e s) := by
  obtain ⟨h1, h2, h3, h4, h5, h6, h7, h8, h9, h10, h11, h12⟩ := hs
  have habs0 : |(0:ℚ)| ≤ 1 := by norm_num
  cases e with
  | l3_up v =>
      exact ⟨h1, dz_unit_abs he.1 he.2, h3, h4, h5, h6, h7, h8, h9, h10, h11, h12⟩
  | l3_down v =>
      exact ⟨h1, dz_unit_abs he.1 he.2, h3, h4, h5, h6, h7, h8, h9, h10, h11, h12⟩
  | l3_left v =>
      exact ⟨dz_unit_abs he.1 he.2, h2, h3, h4, h5, h6, h7, h8, h9, h10, h11, h12⟩
  | l3_right v =>
      exact ⟨dz_unit_abs he.1 he.2, h2, h3, h4, h5, h6, h7, h8, h9, h10, h11, h12⟩
  | l3_y_at_rest =>
      exact ⟨h1, habs0, h3, h4, h5, h6, h7, h8, h9, h10, h11, h12⟩
  | l3_x_at_rest =>
      exact ⟨habs0, h2, h3, h4, h5, h6, h7, h8, h9, h10, h11, h12⟩
  | r3_up v =>
      exact ⟨h1, h2, h3, h4, h5, h6, h7, h8, h9, h10, le_refl 0, zero_le_one⟩
  | r3_down v =>
      exact ⟨h1, h2, h3, h4, h5, h6, h7, h8, h9, h10,
        (dz_unit_trigger he.1 he.2).1, (dz_unit_trigger he.1 he.2).2⟩
  | r3_left v =>
      exact ⟨h1, h2, h3, h4, h5, h6, le_refl 0, zero_le_one, h9, h10, h11, h12⟩
  | r3_right v =>
      exact ⟨h1, h2, h3, h4, h5, h6,
        (dz_unit_trigger he.1 he.2).1, (dz_unit_trigger he.1 he.2).2,
        h9, h10, h11, h12⟩
  | r3_y_at_rest =>
      exact ⟨h1, h2, h3, habs0, h5, h6, h7, h8, h9, h10, h11, h12⟩
  | r3_x_at_rest =>
      exact ⟨h1, h2, habs0, h4, h5, h6, h7, h8, h9, h10, h11, h12⟩
  | l1_press v =>
      exact ⟨h1, h2, h3, h4,
        (dz_unit_trigger he.1 he.2).1, (dz_unit_trigger he.1 he.2).2,
        h7, h8, h9, h10, h11, h12⟩
  | l1_release =>
      exact ⟨h1, h2, h3, h4, le_refl 0, zero_le_one, h7, h8, h9, h10, h11, h12⟩
  | l2_press v =>
      exact ⟨h1, h2, dz_unit_abs he.1 he.2, h4, h5, h6, h7, h8, h9, h10, h11, h12⟩
  | l2_release =>
      exact ⟨h1, h2, habs0, h4, h5, h6, h7, h8, h9, h10, h11, h12⟩
  | r1_press v =>
      exact ⟨h1, h2, h3, h4, h5, h6, h7, h8,
        (dz_unit_trigger he.1 he.2).1, (dz_unit_trigger he.1 he.2).2, h11, h12⟩
  | r1_release =>
      exact ⟨h1, h2, h3, h4, h5, h6, h7, h8, le_refl 0, zero_le_one, h11, h12⟩
  | r2_press v =>
      exact ⟨h1, h2, h3, dz_unit_abs he.1 he.2, h5, h6, h7, h8, h9, h10, h11, h12⟩
  | r2_release =>
      exact ⟨h1, h2, h3, habs0, h5, h6, h7, h8, h9, h10, h11, h12⟩

lemma applyEvents_preserves :
    ∀ (evs : List InputEvent) (s : TeleopState), inRange s →
      (∀ e ∈ evs, validEvent e) → inRange (applyEvents s evs)
  | [], s, hs, _ => hs
  | e :: evs, s, hs, hv =>
      applyEvents_preserves evs (dispatch e s)
        (dispatch_preserves (hv e (List.mem_cons_self e evs)) hs)
        (fun x hx => hv x (List.mem_cons_of_mem e hx))

/-- C5.  The Input State invariant: the initial state satisfies it, every
event-handler update with an in-range raw sample preserves it, every state
reachable from startup through a valid event stream satisfies it, and every
at-rest/release callback resets exactly its field to exactly 0. -/
theorem input_state_invariant :
    inRange initState ∧
    (∀ (e : InputEvent) (s : TeleopState),
      validEvent e → inRange s → inRange (dispatch e s)) ∧
    (∀ evs : List InputEvent, (∀ e ∈ evs, validEvent e) →
      inRange (applyEvents initState evs)) ∧
    (∀ s : TeleopState,
      (on_L3_y_at_rest s).left_y = 0 ∧ (on_L3_x_at_rest s).left_x = 0 ∧
      (on_R3_y_at_rest s).right_y = 0 ∧ (on_R3_x_at_rest s).right_x = 0 ∧
      (on_L1_release s).l1_value = 0 ∧ (on_L2_release s).right_x = 0 ∧
      (on_R1_release s).r1_value = 0 ∧ (on_R2_release s).right_y = 0) :=
  ⟨initState_inRange,
   fun _ _ he hs => dispatch_preserves he hs,
   fun evs hv => applyEvents_preserves evs initState initState_inRange hv,
   fun _ => ⟨rfl, rfl, rfl, rfl, rfl, rfl, rfl, rfl⟩⟩

/-- Witness for C5: the valid event stream pressing R3 fully down then L3
fully left leaves the state in range. -/
theorem input_state_invariant_witness :
    inRange (applyEvents initState
      [InputEvent.r3_down 32767, InputEvent.l3_left (-32767)]) := by
  apply input_state_invariant.2.2.1
  intro e he
  simp only [List.mem_cons, List.not_mem_nil, or_false] at he
  rcases he with rfl | rfl
  · exact ⟨by norm_num, by norm_num⟩
  · exact ⟨by norm_num, by norm_num⟩

/-! ### The per-tick command of the control loop -/

lemma motion_tick_eq_speedL {s : TeleopState}
    (h : ∃ x ∈ velocity_cmd s velocity_scale, epsilon < |x|) :
    motion_tick s =
      Command.speedL (velocity_cmd s velocity_scale) acceleration (dt * 2) := by
  have hc : (velocity_cmd s velocity_scale).any
      (fun x => decide (epsilon < |x|)) = true := by
    rw [List.any_eq_true]
    obtain ⟨x, hx, hlt⟩ := h
    exact ⟨x, hx, decide_eq_true hlt⟩
  unfold motion_tick
  simp [hc]

lemma motion_tick_eq_stop {s : TeleopState}
    (h : ∀ x ∈ velocity_cmd s velocity_scale, |x| ≤ epsilon) :
    motion_tick s = Command.speedStop := by
  have hc : (velocity_cmd s velocity_scale).any
      (fun x => decide (epsilon < |x|)) = false := by
    rw [List.any_eq_false]
    intro x hx
    simpa using not_lt.2 (h x hx)
  unfold motion_tick
  simp [hc]

/-- C8.  Each iteration of the control loop issues exactly one command: when
some component of the synthesized velocity vector has magnitude above
`epsilon = 0.001`, a `speedL` streaming command carrying that vector, the
configured acceleration limit and the validity horizon `dt * 2` (twice the
tick period); otherwise an explicit `speedStop`. -/
theorem motion_tick_spec (s : TeleopState) :
    ((∃ x ∈ velocity_cmd s velocity_scale, epsilon < |x|) →
      motion_tick s =
        Command.speedL (velocity_cmd s velocity_scale) acceleration (dt * 2)) ∧
    ((∀ x ∈ velocity_cmd s velocity_scale, |x| ≤ epsilon) →
      motion_tick s = Command.speedStop) :=
  ⟨motion_tick_eq_speedL, motion_tick_eq_stop⟩

/-- Witness for C8 at the all-zero initial state: every component is within
epsilon and the tick issues `speedStop`. -/
theorem motion_tick_spec_witness :
    (∀ x ∈ velocity_cmd initState velocity_scale, |x| ≤ epsilon) ∧
    motion_tick initState = Command.speedStop := by
  have h : ∀ x ∈ velocity_cmd initState velocity_scale, |x| ≤ epsilon := by
    intro x hx
    simp only [velocity_cmd, initState, List.mem_cons, List.not_mem_nil,
      or_false] at hx
    rcases hx with rfl | rfl | rfl | rfl | rfl | rfl <;>
      norm_num [epsilon, abs]
  exact ⟨h, (motion_tick_spec initState).2 h⟩

/-! ### Bounded commanded speed -/

lemma abs_mul_scale_le {a c : ℚ} (ha : |a| ≤ 1) (hc : 0 ≤ c) : |a * c| ≤ c := by
  rw [abs_mul, abs_of_nonneg hc]
  calc |a| * c ≤ 1 * c := mul_le_mul_of_nonneg_right ha hc
  _ = c := one_mul c

/-- C10.  From any Input State satisfying the data-model ranges, every
component of the synthesized velocity command has magnitude at most the
configured velocity scale. -/
theorem velocity_cmd_bounded (s : TeleopState) (h : inRange s) :
    ∀ x ∈ velocity_cmd s velocity_scale, |x| ≤ velocity_scale := by
  obtain ⟨h1, h2, h3, h4, h5, h6, h7, h8, h9, h10, h11, h12⟩ := h
  have hvs : (0:ℚ) ≤ velocity_scale := by norm_num [velocity_scale]
  intro x hx
  simp only [velocity_cmd, List.mem_cons, List.not_mem_nil, or_false] at hx
  rcases hx with rfl | rfl | rfl | rfl | rfl | rfl
  · exact abs_mul_scale_le (by rwa [abs_neg]) hvs
  · exact abs_mul_scale_le (by rwa [abs_neg]) hvs
  · exact abs_mul_scale_le (abs_le.2 ⟨by linarith, by linarith⟩) hvs
  · exact abs_mul_scale_le h4 hvs
  · exact abs_mul_scale_le (by rwa [abs_neg]) hvs
  · exact abs_mul_scale_le (abs_le.2 ⟨by linarith, by linarith⟩) hvs

/-- Witness for C10 at the full-forward state. -/
theorem velocity_cmd_bounded_witness :
    inRange exStream ∧
    ∀ x ∈ velocity_cmd exStream velocity_scale, |x| ≤ velocity_scale := by
  have h : inRange exStream := by
    unfold inRange exStream initState
    norm_num
  exact ⟨h, velocity_cmd_bounded exStream h⟩

/-! ### The end-to-end forward scenario -/

/-- C9.  Left stick fully forward (raw 32767, deadzone 0.1) sets the forward
field `left_y` to exactly 1; the next tick synthesizes
`vx = -1 * velocity_scale` and issues the streaming command; after the
stick's at-rest event the next tick issues `speedStop`. -/
theorem end_to_end_forward :
    (on_L3_up 32767 initState).left_y = 1 ∧
    velocity_cmd (on_L3_up 32767 initState) velocity_scale =
      [-1 * velocity_scale, 0, 0, 0, 0, 0] ∧
    motion_tick (on_L3_up 32767 initState) =
      Command.speedL [-1 * velocity_scale, 0, 0, 0, 0, 0] acceleration (dt * 2) ∧
    motion_tick (on_L3_y_at_rest (on_L3_up 32767 initState)) =
      Command.speedStop := by
  have h1 : (on_L3_up 32767 initState).left_y = 1 := by
    show apply_deadzone deadzone ((32767:ℚ) / 32767) = 1
    norm_num [apply_deadzone, deadzone, abs]
  have h2 : velocity_cmd (on_L3_up 32767 initState) velocity_scale =
      [-1 * velocity_scale, 0, 0, 0, 0, 0] := by
    unfold velocity_cmd
    rw [h1]
    show [_, -(0:ℚ) * _, ((0:ℚ) - 0) * _, (0:ℚ) * _, -(0:ℚ) * _,
      ((0:ℚ) - 0) * _] = _
    norm_num
  have h3 : motion_tick (on_L3_up 32767 initState) =
      Command.speedL [-1 * velocity_scale, 0, 0, 0, 0, 0] acceleration (dt * 2) := by
    rw [motion_tick_eq_speedL, h2]
    rw [h2]
    exact ⟨-1 * velocity_scale, by norm_num, by norm_num [velocity_scale, epsilon, abs]⟩
  have h4 : motion_tick (on_L3_y_at_rest (on_L3_up 32767 initState)) =
      Command.speedStop := by
    apply motion_tick_eq_stop
    intro x hx
    simp only [velocity_cmd, on_L3_y_at_rest, on_L3_up, initState,
      List.mem_cons, List.not_mem_nil, or_false] at hx
    rcases hx with rfl | rfl | rfl | rfl | rfl | rfl <;>
      norm_num [epsilon, abs]
  exact ⟨h1, h2, h3, h4⟩

/-! ### Concrete evaluations at the full-forward state -/

lemma velocity_cmd_exStream :
    velocity_cmd exStream velocity_scale =
      [-1 * velocity_scale, 0, 0, 0, 0, 0] := by
  unfold velocity_cmd exStream initState
  norm_num

lemma motion_tick_exStream :
    motion_tick exStream =
      Command.speedL [-1 * velocity_scale, 0, 0, 0, 0, 0] acceleration (dt * 2) := by
  have hex : ∃ x ∈ velocity_cmd exStream velocity_scale, epsilon < |x| := by
    rw [velocity_cmd_exStream]
    exact ⟨-1 * velocity_scale, by simp, by norm_num [velocity_scale, epsilon, abs]⟩
  rw [motion_tick_eq_speedL hex, velocity_cmd_exStream]

/-! ### Emergency stop (Square) -/

/-- Counterexample to C1: pressing Square at the full-forward streaming state
leaves the shared `running` flag true, and the very next control-loop
iteration still issues a velocity-streaming command. -/
theorem square_press_counterexample :
    ((on_square_press exStream).1).running = true ∧
    (motion_loop (on_square_press exStream).1 [false]).2 =
      [Command.speedL [-1 * velocity_scale, 0, 0, 0, 0, 0] acceleration (dt * 2)] := by
  refine ⟨rfl, ?_⟩
  have hloop : motion_loop (on_square_press exStream).1 [false] =
      (exStream, [motion_tick exStream]) := rfl
  rw [hloop, motion_tick_exStream]

/-- C1 as amended: the Square handler issues exactly one stop command
followed by one abort (`stopScript`) command, but it does not mark the
Control Loop as terminated — it leaves the shared state (in particular the
`running` flag) unchanged, so from any post-press state that is still
running and whose velocity command is non-idle, the next loop iteration
issues a further velocity-streaming command. -/
theorem square_press_amended :
    (∀ s : TeleopState,
      on_square_press s = (s, [Command.speedStop, Command.stopScript])) ∧
    (∀ s : TeleopState, s.running = true →
      (∃ x ∈ velocity_cmd s velocity_scale, epsilon < |x|) →
      (motion_loop (on_square_press s).1 [false]).2 =
        [Command.speedL (velocity_cmd s velocity_scale) acceleration (dt * 2)]) := by
  constructor
  · intro s
    rfl
  · intro s hrun hex
    have hloop : motion_loop s [false] = (s, [motion_tick s]) := by
      simp [motion_loop, hrun]
    show (motion_loop s [false]).2 = _
    rw [hloop, motion_tick_eq_speedL hex]

/-- Witness for the amended C1 at the full-forward state. -/
theorem square_press_amended_witness :
    on_square_press exStream = (exStream, [Command.speedStop, Command.stopScript]) ∧
    (motion_loop (on_square_press exStream).1 [false]).2 =
      [Command.speedL (velocity_cmd exStream velocity_scale) acceleration (dt * 2)] :=
  ⟨square_press_amended.1 exStream,
   square_press_amended.2 exStream rfl
     ⟨-exStream.left_y * velocity_scale, List.mem_cons_self _ _,
      by norm_num [exStream, initState, velocity_scale, epsilon, abs]⟩⟩

/-! ### Home move (Triangle) against the control loop -/

/-- Counterexample to C2: in the interleaving `homeSched` — which respects
the Triangle handler's program order — a control-loop tick scheduled while
the blocking `moveJ` is in flight issues a `speedL` streaming command
between the start of the joint move and its completion acknowledgment. -/
theorem home_move_counterexample :
    homeOrder homeSched ∧
    streamDuringMove false (exec_sched exStream homeSched) = true := by
  constructor
  · rfl
  · have htr : exec_sched exStream homeSched =
        [Ev.cmd Command.speedStop,
         Ev.cmd (Command.moveJ home_joint_position (21/20) (7/5)),
         Ev.cmd (motion_tick exStream), Ev.moveDone] := rfl
    rw [htr, motion_tick_exStream]
    rfl

/-- C2 as amended: the Triangle handler issues a stop command and then the
blocking joint move to the home pose, but nothing pauses or locks out the
Control Loop while the move executes — there exists an interleaving
respecting the handler's program order in which the loop issues a
velocity-streaming command between the start of the joint move and its
completion acknowledgment. -/
theorem home_move_amended :
    (∀ s : TeleopState,
      exec_sched s [Step.home HomeStep.callStop, Step.home HomeStep.moveStart,
          Step.home HomeStep.moveEnd] =
        [Ev.cmd Command.speedStop,
         Ev.cmd (Command.moveJ home_joint_position (21/20) (7/5)),
         Ev.moveDone]) ∧
    (∃ sched : List Step, homeOrder sched ∧
      streamDuringMove false (exec_sched exStream sched) = true) := by
  constructor
  · intro s
    rfl
  · refine ⟨homeSched, rfl, ?_⟩
    have htr : exec_sched exStream homeSched =
        [Ev.cmd Command.speedStop,
         Ev.cmd (Command.moveJ home_joint_position (21/20) (7/5)),
         Ev.cmd (motion_tick exStream), Ev.moveDone] := rfl
    rw [htr, motion_tick_exStream]
    rfl

/-! ### Streaming failure in the control loop -/

/-- Counterexample to C3: when the per-tick command fails at the streaming
state `exStream`, the loop terminates immediately with an empty command
trace — in particular no best-effort stop command is issued. -/
theorem loop_failure_counterexample :
    exStream.running = true ∧
    motion_loop exStream [true, false, false] =
      ({ exStream with running := false }, []) ∧
    Command.speedStop ∉ (motion_loop exStream [true, false, false]).2 :=
  ⟨rfl, rfl, List.not_mem_nil _⟩

/-- C3 as amended: if the per-tick command of any iteration fails, the loop
records the failure and terminates permanently — no iteration after the
failing one is ever executed, whatever the rest of the failure oracle says
— but the `except` branch issues no best-effort stop command: the failing
iteration contributes no command at all to the trace. -/
theorem loop_failure_amended :
    (∀ (s : TeleopState) (fs gs : List Bool),
      motion_loop s (fs ++ true :: gs) = motion_loop s (fs ++ [true])) ∧
    (∀ s : TeleopState, s.running = true →
      motion_loop s [true] = ({ s with running := false }, [])) := by
  constructor
  · intro s fs gs
    induction fs with
    | nil => cases hr : s.running <;> simp [motion_loop, hr]
    | cons f fs ih => cases hr : s.running <;> cases f <;> simp [motion_loop, hr, ih]
  · intro s hr
    simp [motion_loop, hr]

/-- Witness for the amended C3 at the initial state. -/
theorem loop_failure_amended_witness :
    initState.running = true ∧
    motion_loop initState [true] = ({ initState with running := false }, []) :=
  ⟨rfl, loop_failure_amended.2 initState rfl⟩

/-! ### The mismatched axis-to-field writes (C4) -/

/-- C4: evaluation of the handlers at the failing inputs.  A full L2 press
writes the roll-axis field `right_x` and leaves the claimed target
`l2_value` (liftDown) untouched; a full R2 press writes the pitch-axis
field `right_y` and leaves `r2_value` (yawCw) untouched; the right-stick
vertical callbacks write `r2_value` (up ignores its sample entirely and
leaves `right_y` as it was) and the right-stick horizontal callbacks write
`l2_value`, not the right-stick axis fields of the normative mapping. -/
theorem mismatched_field_writes :
    (on_L2_press 32767 initState).right_x = 1 ∧
    (on_L2_press 32767 initState).l2_value = 0 ∧
    (on_R2_press 32767 initState).right_y = 1 ∧
    (on_R2_press 32767 initState).r2_value = 0 ∧
    (on_R3_up 32767 exHalf).r2_value = 0 ∧
    (on_R3_up 32767 exHalf).right_y = 1/2 ∧
    (on_R3_down 32767 initState).r2_value = 1 ∧
    (on_R3_down 32767 initState).right_y = 0 ∧
    (on_R3_right 32767 initState).l2_value = 1 ∧
    (on_R3_right 32767 initState).right_x = 0 := by
  have hdz : apply_deadzone deadzone ((32767:ℚ) / 32767) = 1 := by
    norm_num [apply_deadzone, deadzone, abs]
  exact ⟨hdz, rfl, hdz, rfl, rfl, rfl, hdz, rfl, hdz, rfl⟩

end Teleop

